import Mathlib

/-
Verification of the baluster access-control core: a shallow embedding of the
Go sources (internal/types, internal/core, internal/core/admin, internal/auth,
internal/storage) together with theorems about the embedded operations.

Modelling conventions:
  * Go `time.Time` instants are Nat (Unix time); `*time.Time` is `Option Nat`;
    the implicit `time.Now()` of the source becomes an explicit `now` argument.
  * Go slices are Lean lists (a nil slice is `[]`).
  * Go `(T, error)` results are `T × Option E` or `Except E T`; store/repository
    interfaces become explicit function or structure parameters.
  * A Go method mutating a struct through a pointer is modelled by returning
    the updated struct.
-/

namespace Baluster

/-- Store-level failures: a not-found lookup or an internal/transport error. -/
inductive StoreErr where
  | notFound
  | internal (msg : String)
deriving Repr, DecidableEq

/-! ## internal/types: data model -/

/-- ApplicationAccess (internal/types/organization.go): which permissions a
service key has for one application. -/
structure ApplicationAccess where
  ApplicationID : String
  ApplicationName : String
  Permissions : List String
deriving Repr, DecidableEq

/-- ServiceKey (internal/types/organization.go): a credential granting access
to multiple applications with per-application permissions. -/
structure ServiceKey where
  ID : String
  PartitionKey : String
  EntityType : String
  OrganizationID : String
  Name : String
  TokenValue : String
  Applications : List ApplicationAccess
  ExpiresAt : Option Nat
  CreatedByUserID : String
  CreatedByGitHubID : String
  CreatedByUsername : String
  CreatedAt : Nat
  UpdatedAt : Nat
deriving Repr, DecidableEq

/-- ServiceKey.GetPartitionKey (internal/types/organization.go). -/
def ServiceKey.GetPartitionKey (t : ServiceKey) : String :=
  t.OrganizationID

/-- ServiceKey.IsExpired (internal/types/organization.go): nil expiry is never
expired; otherwise expired iff the expiry instant is strictly before `now`
(Go `t.ExpiresAt.Before(time.Now())`). -/
def ServiceKey.IsExpired (t : ServiceKey) (now : Nat) : Bool :=
  match t.ExpiresAt with
  | none => false
  | some e => e < now

/-- ServiceKey.HasAccessToApplication (internal/types/organization.go): the
Go loop returns (a pointer to) the first entry whose ApplicationName equals
the argument exactly. -/
def ServiceKey.HasAccessToApplication (t : ServiceKey) (applicationName : String) :
    Option ApplicationAccess :=
  t.Applications.find? (fun app => app.ApplicationName == applicationName)

/-- ApiKey (internal/types): a credential authenticating calls to the admin
API itself. -/
structure ApiKey where
  ID : String
  PartitionKey : String
  EntityType : String
  OrganizationID : String
  ApplicationID : String
  Name : String
  TokenValue : String
  ExpiresAt : Option Nat
  CreatedByUserID : String
  CreatedByGitHubID : String
  CreatedByUsername : String
  CreatedAt : Nat
  UpdatedAt : Nat
deriving Repr, DecidableEq

/-- ApiKey.IsExpired (internal/types): same shape as ServiceKey.IsExpired. -/
def ApiKey.IsExpired (t : ApiKey) (now : Nat) : Bool :=
  match t.ExpiresAt with
  | none => false
  | some e => e < now

/-- Organization (internal/types/organization.go); MemberIDs is the deprecated
embedded member list kept for backward compatibility. -/
structure Organization where
  ID : String
  PartitionKey : String
  EntityType : String
  OrganizationID : String
  Name : String
  MemberIDs : List String
  CreatedAt : Nat
  UpdatedAt : Nat
deriving Repr, DecidableEq

/-- User (internal/types): an authenticated principal from the external
identity provider. -/
structure User where
  ID : String
  PartitionKey : String
  GitHubID : String
  Username : String
  AvatarURL : String
  CreatedAt : Nat
  UpdatedAt : Nat
deriving Repr, DecidableEq

/-- AuditAction (internal/types/audit_history.go). -/
inductive AuditAction where
  | created
  | updated
  | deleted
deriving Repr, DecidableEq

/-- AuditHistory (internal/types/audit_history.go). -/
structure AuditHistory where
  ID : String
  PartitionKey : String
  EntityType : String
  EntityID : String
  OrganizationID : String
  Action : AuditAction
  CreatedByUserID : String
  CreatedByGitHubID : String
  CreatedByUsername : String
  CreatedAt : Nat
deriving Repr, DecidableEq

/-! ## internal/core/validate_access.go -/

/-- ValidateAccessInput (internal/core/validate_access.go). -/
structure ValidateAccessInput where
  Token : String
  ApplicationName : String
  OrganizationID : String
deriving Repr, DecidableEq

/-- ValidateAccessOutput (internal/core/validate_access.go); a Go nil
Permissions slice is `[]`. -/
structure ValidateAccessOutput where
  Valid : Bool
  Permissions : List String
deriving Repr, DecidableEq

/-- The output value `&ValidateAccessOutput{Valid: false}` produced on every
non-success path of ValidateAccess. -/
def invalidOutput : ValidateAccessOutput :=
  { Valid := false, Permissions := [] }

/-- ValidateAccess (internal/core/validate_access.go). The repository
interface ServiceKeyTokenFinder is the function argument
`findByTokenValueInOrg organizationID token`; the Go function returns a
`(*ValidateAccessOutput, error)` pair whose error is nil on every path, which
the second component records. -/
def ValidateAccess
    (findByTokenValueInOrg : String → String → Except StoreErr ServiceKey)
    (now : Nat) (input : ValidateAccessInput) :
    ValidateAccessOutput × Option StoreErr :=
  if input.OrganizationID = "" then
    (invalidOutput, none)
  else
    match findByTokenValueInOrg input.OrganizationID input.Token with
    | .error _ => (invalidOutput, none)
    | .ok serviceKey =>
      if serviceKey.IsExpired now then
        (invalidOutput, none)
      else
        match serviceKey.HasAccessToApplication input.ApplicationName with
        | none => (invalidOutput, none)
        | some access => ({ Valid := true, Permissions := access.Permissions }, none)

/-! ## internal/auth/cache.go: generic TTL cache -/

/-- CacheEntry (internal/auth/cache.go): a cached value with its absolute
expiry instant. -/
structure CacheEntry (T : Type) where
  Value : T
  ExpiresAt : Nat
deriving Repr, DecidableEq

/-- Cache (internal/auth/cache.go): the `map[string]*CacheEntry[T]` field,
modelled extensionally. The mutex only serialises concurrent access and has
no sequential content. -/
structure Cache (T : Type) where
  items : String → Option (CacheEntry T)

/-- NewCache (internal/auth/cache.go): an empty cache. -/
def NewCache (T : Type) : Cache T :=
  ⟨fun _ => none⟩

/-- Cache.Get (internal/auth/cache.go): `(zero, false)` when the key is absent
or `time.Now().After(entry.ExpiresAt)`, i.e. strictly after expiry. -/
def Cache.Get {T : Type} [Inhabited T] (c : Cache T) (now : Nat) (key : String) :
    T × Bool :=
  match c.items key with
  | none => (default, false)
  | some entry =>
    if now > entry.ExpiresAt then (default, false)
    else (entry.Value, true)

/-- Cache.Set (internal/auth/cache.go): insert or overwrite. -/
def Cache.Set {T : Type} (c : Cache T) (key : String) (value : T) (expiresAt : Nat) :
    Cache T :=
  ⟨fun k => if k = key then some ⟨value, expiresAt⟩ else c.items k⟩

/-- Cache.Delete (internal/auth/cache.go). -/
def Cache.Delete {T : Type} (c : Cache T) (key : String) : Cache T :=
  ⟨fun k => if k = key then none else c.items k⟩

/-- Cache.GetAndDelete (internal/auth/cache.go): one critical section that
reads the entry and removes it; returns the (value, found) pair together with
the cache as left behind by the operation. -/
def Cache.GetAndDelete {T : Type} [Inhabited T] (c : Cache T) (now : Nat)
    (key : String) : (T × Bool) × Cache T :=
  match c.items key with
  | none => ((default, false), c)
  | some entry =>
    if now > entry.ExpiresAt then ((default, false), c.Delete key)
    else ((entry.Value, true), c.Delete key)

/-! ## internal/storage/application_repo.go: HashToken

The stored/lookup representation of every credential is the hex-encoded
SHA-256 digest of the raw token (`sha256.Sum256` + `hex.EncodeToString`).
SHA-256 is embedded below over byte lists (bytes and 32-bit words are Nat
with explicit reduction mod 2^32). -/

/-- UTF-8 encoding of one character, as Go `[]byte(s)` produces it. -/
def utf8Bytes (c : Char) : List Nat :=
  let n := c.toNat
  if n < 128 then [n]
  else if n < 2048 then [192 + n / 64, 128 + n % 64]
  else if n < 65536 then [224 + n / 4096, 128 + (n / 64) % 64, 128 + n % 64]
  else [240 + n / 262144, 128 + (n / 4096) % 64, 128 + (n / 64) % 64, 128 + n % 64]

/-- The byte sequence of a Go string (`[]byte(s)`, UTF-8). -/
def stringToBytes (s : String) : List Nat :=
  (s.data.map utf8Bytes).flatten

/-- Reduction modulo 2^32, the word size of SHA-256 arithmetic. -/
def w32 (x : Nat) : Nat := x % 4294967296

/-- Right rotation of a 32-bit word. -/
def rotr (n x : Nat) : Nat := w32 ((x >>> n) ||| (x <<< (32 - n)))

/-- SHA-256 Σ0. -/
def bSig0 (x : Nat) : Nat := rotr 2 x ^^^ rotr 13 x ^^^ rotr 22 x

/-- SHA-256 Σ1. -/
def bSig1 (x : Nat) : Nat := rotr 6 x ^^^ rotr 11 x ^^^ rotr 25 x

/-- SHA-256 σ0. -/
def sSig0 (x : Nat) : Nat := rotr 7 x ^^^ rotr 18 x ^^^ (x >>> 3)

/-- SHA-256 σ1. -/
def sSig1 (x : Nat) : Nat := rotr 17 x ^^^ rotr 19 x ^^^ (x >>> 10)

/-- SHA-256 Ch(x,y,z) = (x AND y) XOR (NOT x AND z), NOT within 32 bits. -/
def chF (x y z : Nat) : Nat := (x &&& y) ^^^ ((x ^^^ 4294967295) &&& z)

/-- SHA-256 Maj(x,y,z). -/
def majF (x y z : Nat) : Nat := (x &&& y) ^^^ (x &&& z) ^^^ (y &&& z)

/-- The 64 SHA-256 round constants (FIPS 180-4, written in decimal). -/
def sha256K : List Nat :=
  [1116352408, 1899447441, 3049323471, 3921009573,
   961987163, 1508970993, 2453635748, 2870763221,
   3624381080, 310598401, 607225278, 1426881987,
   1925078388, 2162078206, 2614888103, 3248222580,
   3835390401, 4022224774, 264347078, 604807628,
   770255983, 1249150122, 1555081692, 1996064986,
   2554220882, 2821834349, 2952996808, 3210313671,
   3336571891, 3584528711, 113926993, 338241895,
   666307205, 773529912, 1294757372, 1396182291,
   1695183700, 1986661051, 2177026350, 2456956037,
   2730485921, 2820302411, 3259730800, 3345764771,
   3516065817, 3600352804, 4094571909, 275423344,
   430227734, 506948616, 659060556, 883997877,
   958139571, 1322822218, 1537002063, 1747873779,
   1955562222, 2024104815, 2227730452, 2361852424,
   2428436474, 2756734187, 3204031479, 3329325298]

/-- Big-endian bytes of a 64-bit length field. -/
def lenBytes64 (n : Nat) : List Nat :=
  [(n >>> 56) % 256, (n >>> 48) % 256, (n >>> 40) % 256, (n >>> 32) % 256,
   (n >>> 24) % 256, (n >>> 16) % 256, (n >>> 8) % 256, n % 256]

/-- SHA-256 padding: append 0x80, zeros to 56 mod 64, then the bit length. -/
def padMessage (msg : List Nat) : List Nat :=
  let padZeros := (64 - (msg.length + 9) % 64) % 64
  msg ++ [128] ++ List.replicate padZeros 0 ++ lenBytes64 (msg.length * 8)

/-- Big-endian 32-bit words from a byte list. -/
def toWords : List Nat → List Nat
  | b0 :: b1 :: b2 :: b3 :: rest =>
    (((b0 * 256 + b1) * 256 + b2) * 256 + b3) :: toWords rest
  | _ => []

/-- One message-schedule extension step: append W[i] for i = current length. -/
def scheduleStep (ws : List Nat) : List Nat :=
  let i := ws.length
  ws ++ [w32 (sSig1 (ws.getD (i - 2) 0) + ws.getD (i - 7) 0 +
              sSig0 (ws.getD (i - 15) 0) + ws.getD (i - 16) 0)]

/-- The full 64-entry message schedule from the 16 block words. -/
def buildSchedule (ws : List Nat) : List Nat :=
  scheduleStep^[48] ws

/-- The eight 32-bit working variables of the SHA-256 compression function. -/
structure Sha256S where
  a : Nat
  b : Nat
  c : Nat
  d : Nat
  e : Nat
  f : Nat
  g : Nat
  h : Nat
deriving Repr, DecidableEq

/-- One SHA-256 round, consuming a (round constant, schedule word) pair. -/
def compressStep (st : Sha256S) (kw : Nat × Nat) : Sha256S :=
  let t1 := w32 (st.h + bSig1 st.e + chF st.e st.f st.g + kw.1 + kw.2)
  let t2 := w32 (bSig0 st.a + majF st.a st.b st.c)
  ⟨w32 (t1 + t2), st.a, st.b, st.c, w32 (st.d + t1), st.e, st.f, st.g⟩

/-- Process one 64-byte block: 64 rounds, then add into the chaining state. -/
def processBlock (hs : Sha256S) (block : List Nat) : Sha256S :=
  let ws := buildSchedule (toWords block)
  let st := (sha256K.zip ws).foldl compressStep hs
  ⟨w32 (hs.a + st.a), w32 (hs.b + st.b), w32 (hs.c + st.c), w32 (hs.d + st.d),
   w32 (hs.e + st.e), w32 (hs.f + st.f), w32 (hs.g + st.g), w32 (hs.h + st.h)⟩

/-- The SHA-256 initial hash values (FIPS 180-4, written in decimal). -/
def sha256Init : Sha256S :=
  ⟨1779033703, 3144134277, 1013904242, 2773480762,
   1359893119, 2600822924, 528734635, 1541459225⟩

/-- Split into 64-byte blocks, with the block count as explicit fuel. -/
def toBlocks : Nat → List Nat → List (List Nat)
  | 0, _ => []
  | n + 1, l => l.take 64 :: toBlocks n (l.drop 64)

/-- Big-endian bytes of one 32-bit word. -/
def wordBytes (w : Nat) : List Nat :=
  [(w >>> 24) % 256, (w >>> 16) % 256, (w >>> 8) % 256, w % 256]

/-- The 32-byte digest of a final SHA-256 state. -/
def digestBytes (st : Sha256S) : List Nat :=
  wordBytes st.a ++ wordBytes st.b ++ wordBytes st.c ++ wordBytes st.d ++
  wordBytes st.e ++ wordBytes st.f ++ wordBytes st.g ++ wordBytes st.h

/-- SHA-256 of a byte list (Go `sha256.Sum256`). -/
def sha256Bytes (msg : List Nat) : List Nat :=
  let padded := padMessage msg
  digestBytes ((toBlocks (padded.length / 64) padded).foldl processBlock sha256Init)

/-- Lower-case hex digit for a nibble (Go `encoding/hex` alphabet). -/
def hexChar (n : Nat) : Char :=
  if n < 10 then Char.ofNat (48 + n) else Char.ofNat (87 + n)

/-- Two lower-case hex digits of one byte. -/
def byteHex (b : Nat) : List Char :=
  [hexChar (b / 16 % 16), hexChar (b % 16)]

/-- Go `hex.EncodeToString`. -/
def hexEncode (bs : List Nat) : String :=
  ⟨(bs.map byteHex).flatten⟩

/-- HashToken (internal/storage/application_repo.go): the hex-encoded SHA-256
digest of the raw token value, the stored/lookup representation of every
credential. -/
def HashToken (tokenValue : String) : String :=
  hexEncode (sha256Bytes (stringToBytes tokenValue))

/-! ## internal/auth/context.go: request context -/

/-- The request context values set by the auth middleware (user_id, github_id,
username, organization_id keys); a missing key is `none`. -/
structure Context where
  UserID : Option String
  GitHubID : Option String
  Username : Option String
  OrganizationID : Option String
deriving Repr, DecidableEq

/-- GetUserID (internal/auth/context.go): a failed type assertion yields the
zero string and `false`. -/
def GetUserID (ctx : Context) : String × Bool :=
  match ctx.UserID with
  | some s => (s, true)
  | none => ("", false)

/-- GetGitHubID (internal/auth/context.go). -/
def GetGitHubID (ctx : Context) : String × Bool :=
  match ctx.GitHubID with
  | some s => (s, true)
  | none => ("", false)

/-- GetUsername (internal/auth/context.go). -/
def GetUsername (ctx : Context) : String × Bool :=
  match ctx.Username with
  | some s => (s, true)
  | none => ("", false)

/-- GetUserInfo (internal/auth/context.go): ok iff all three values are set. -/
def GetUserInfo (ctx : Context) : String × String × String × Bool :=
  let u := GetUserID ctx
  let g := GetGitHubID ctx
  let n := GetUsername ctx
  (u.1, g.1, n.1, u.2 && g.2 && n.2)

/-- GetOrganizationID (internal/auth/context.go). -/
def GetOrganizationID (ctx : Context) : String × Bool :=
  match ctx.OrganizationID with
  | some s => (s, true)
  | none => ("", false)

/-! ## internal/core/admin: CreateServiceKey -/

/-- The error values of the admin create-service-key flow
(internal/core/admin/errors.go plus the wrapped fmt.Errorf cases of
create_service_key.go). `serviceKeyLimitExceeded` is the named
ErrServiceKeyLimitExceeded. -/
inductive AdminError where
  | userInfoNotFound
  | orgIDNotFound
  | serviceKeyLimitExceeded
  | countFailed (e : StoreErr)
  | createFailed (e : StoreErr)
deriving Repr, DecidableEq

/-- CreateServiceKeyInput (internal/core/admin/create_service_key.go). -/
structure CreateServiceKeyInput where
  Name : String
  Applications : List ApplicationAccess
  ExpiresAt : Option Nat
deriving Repr, DecidableEq

/-- CreateServiceKeyOutput (internal/core/admin/create_service_key.go):
TokenValue is the original unhashed token, returned only on creation. -/
structure CreateServiceKeyOutput where
  ServiceKey : ServiceKey
  TokenValue : String
deriving Repr, DecidableEq

/-- The ServiceKeyCreator interface (internal/core/admin/create_service_key.go)
over an abstract store state σ. `Create` receives the key struct and returns
the struct as left after the call (the Go method mutates it through the
pointer) together with the new store state. -/
structure ServiceKeyCreator (σ : Type) where
  Create : σ → ServiceKey → String → String → String → Except StoreErr (ServiceKey × σ)
  CountByOrganization : σ → String → Except StoreErr Nat

/-- CreateServiceKey (internal/core/admin/create_service_key.go). The calls to
GenerateTokenValue, storage.GenerateID and time.Now are the explicit arguments
`rawToken`, `newID` and `now`. On an error return the store state is the
caller's unchanged `st`. -/
def CreateServiceKey {σ : Type} (repo : ServiceKeyCreator σ) (st : σ)
    (ctx : Context) (input : CreateServiceKeyInput)
    (rawToken newID : String) (now : Nat) :
    Except AdminError (CreateServiceKeyOutput × σ) :=
  match GetUserInfo ctx with
  | (userID, githubID, username, ok) =>
    if !ok then .error .userInfoNotFound
    else
      match GetOrganizationID ctx with
      | (orgID, orgOk) =>
        if !orgOk then .error .orgIDNotFound
        else
          match repo.CountByOrganization st orgID with
          | .error e => .error (.countFailed e)
          | .ok count =>
            if count ≥ 50 then .error .serviceKeyLimitExceeded
            else
              let serviceKey : ServiceKey :=
                { ID := newID
                  PartitionKey := ""
                  EntityType := "service_key"
                  OrganizationID := orgID
                  Name := input.Name
                  TokenValue := rawToken
                  Applications := input.Applications
                  ExpiresAt := input.ExpiresAt
                  CreatedByUserID := userID
                  CreatedByGitHubID := githubID
                  CreatedByUsername := username
                  CreatedAt := now
                  UpdatedAt := now }
              match repo.Create st serviceKey userID githubID username with
              | .error e => .error (.createFailed e)
              | .ok (serviceKey, st) =>
                .ok ({ ServiceKey := serviceKey, TokenValue := rawToken }, st)

/-! ## internal/storage: the service-key repository over an in-memory store

The Cosmos container holding service keys and their audit records, with the
repository Create operation translated from
internal/storage/application_repo.go (ServiceKeyRepository.Create). -/

/-- The service_keys container: key documents and audit documents sharing the
partition. -/
structure ServiceKeyStore where
  keys : List ServiceKey
  audits : List AuditHistory
deriving Repr, DecidableEq

/-- ServiceKeyRepository.Create (internal/storage): hashes the token value in
place, sets the partition key, and writes the key document together with its
audit record in one transactional batch. Returns the mutated struct and the
new store. -/
def ServiceKeyRepository.Create (auditID : String) (now : Nat)
    (st : ServiceKeyStore) (token : ServiceKey)
    (userID githubID username : String) :
    Except StoreErr (ServiceKey × ServiceKeyStore) :=
  let token := { token with TokenValue := HashToken token.TokenValue }
  let token := { token with PartitionKey := token.GetPartitionKey }
  let auditHistory : AuditHistory :=
    { ID := auditID
      PartitionKey := token.OrganizationID
      EntityType := "audit_history"
      EntityID := token.ID
      OrganizationID := token.OrganizationID
      Action := .created
      CreatedByUserID := userID
      CreatedByGitHubID := githubID
      CreatedByUsername := username
      CreatedAt := now }
  .ok (token, { st with keys := st.keys ++ [token],
                        audits := st.audits ++ [auditHistory] })

/-- ServiceKeyRepository.CountByOrganization (internal/storage): the count
query `organization_id = X AND (entity_type = 'service_key' OR NOT
IS_DEFINED(entity_type))` over the container. -/
def ServiceKeyRepository.CountByOrganization (st : ServiceKeyStore)
    (organizationID : String) : Except StoreErr Nat :=
  .ok ((st.keys.filter (fun k => k.OrganizationID == organizationID &&
        (k.EntityType == "service_key" || k.EntityType == ""))).length)

/-- The concrete ServiceKeyCreator backed by the in-memory container. -/
def serviceKeyRepo (auditID : String) (now : Nat) : ServiceKeyCreator ServiceKeyStore :=
  { Create := ServiceKeyRepository.Create auditID now
    CountByOrganization := ServiceKeyRepository.CountByOrganization }

/-! ## internal/storage/organization_member_repo.go: IsMember -/

/-- The outcome of a Cosmos point read as the Go code discriminates it: a
found document, a 404 ResponseError, or any other error. -/
inductive ReadItemResult where
  | found
  | notFound404
  | failure (msg : String)
deriving Repr, DecidableEq

/-- OrganizationMemberRepository.IsMember
(internal/storage/organization_member_repo.go): point-read the
organization_member document `orgID_userID` first; only on a 404 fall back to
the legacy Organization.MemberIDs array (an error fetching the organization
yields (false, nil)); any other read error is returned. -/
def OrganizationMemberRepository.IsMember
    (readItem : String → String → ReadItemResult)
    (orgGet : String → Except StoreErr Organization)
    (orgID userID : String) : Except StoreErr Bool :=
  let memberID := orgID ++ "_" ++ userID
  match readItem orgID memberID with
  | .found => .ok true
  | .notFound404 =>
    match orgGet orgID with
    | .error _ => .ok false
    | .ok org => .ok (org.MemberIDs.contains userID)
  | .failure msg => .error (.internal msg)

/-! ## internal/auth/api_key_validator.go -/

/-- ApiKeyValidator.Validate (internal/auth/api_key_validator.go): the global
FindByTokenValue lookup is the function argument. Any lookup error yields
`(false, nil)`; an expired key yields `(false, nil)`; otherwise `(true, nil)`.
The second component is the Go error return, nil on every path. -/
def ApiKeyValidator.Validate
    (findByTokenValue : String → Except StoreErr ApiKey)
    (now : Nat) (tokenValue : String) : Bool × Option StoreErr :=
  match findByTokenValue tokenValue with
  | .error _ => (false, none)
  | .ok token =>
    if token.IsExpired now then (false, none)
    else (true, none)

/-! ## internal/auth/middleware.go: JWT middleware -/

/-- Claims (internal/auth/jwt.go). -/
structure Claims where
  UserID : String
  GitHubID : String
  Username : String
deriving Repr, DecidableEq

/-- The `(claims, err)` outcomes of auth.ValidateToken as the middleware
discriminates them (internal/auth/jwt.go): nil error; ErrTokenExpired with
non-nil claims (signature valid, claims parseable, only expired); anything
else (malformed, bad signature, or expired without recoverable claims). -/
inductive TokenValidation where
  | valid (claims : Claims)
  | expired (claims : Claims)
  | invalid
deriving Repr, DecidableEq

/-- What the middleware does with the request: pass it to the next handler
(with the identity values attached to the context, if any, and the
X-Refreshed-Token response header, if set), or stop with an HTTP status. -/
inductive MwOutcome where
  | next (identity : Option (String × String × String)) (refreshedToken : Option String)
  | reject (status : Nat)
deriving Repr, DecidableEq

/-- Go `strings.Split(s, " ")` on the character list: splitting at every
space, an empty input giving one empty field. -/
def splitFields : List Char → List (List Char)
  | [] => [[]]
  | c :: rest =>
    let r := splitFields rest
    if c = ' ' then [] :: r
    else
      match r with
      | [] => [[c]]
      | f :: fs => (c :: f) :: fs

/-- Go `strings.Split(s, " ")`. -/
def stringsSplitSpace (s : String) : List String :=
  (splitFields s.data).map List.asString

/-- JWTAuthMiddleware (internal/auth/middleware.go). `validateToken` embeds
auth.ValidateToken for the configured secret, `userGetByID` the UserGetter
repository, `generateToken` auth.GenerateToken for the looked-up user. -/
def JWTAuthMiddleware
    (validateToken : String → TokenValidation)
    (userGetByID : String → String → Except StoreErr User)
    (generateToken : User → Except String String)
    (method : String) (authHeader : String) : MwOutcome :=
  if method = "OPTIONS" then .next none none
  else if authHeader = "" then .reject 401
  else
    match stringsSplitSpace authHeader with
    | [p0, p1] =>
      if p0 ≠ "Bearer" then .reject 401
      else
        match validateToken p1 with
        | .valid claims =>
          .next (some (claims.UserID, claims.GitHubID, claims.Username)) none
        | .expired claims =>
          match userGetByID claims.UserID claims.GitHubID with
          | .error _ => .reject 401
          | .ok user =>
            match generateToken user with
            | .error _ => .reject 500
            | .ok newToken =>
              .next (some (user.ID, user.GitHubID, user.Username)) (some newToken)
        | .invalid => .reject 401
    | _ => .reject 401

/-! ## Concrete instances used by the closed corollaries -/

/-- A grant of read and write on mail_service. -/
def mailAccess : ApplicationAccess :=
  ⟨"app-1", "mail_service", ["read", "write"]⟩

/-- A stored, unexpired service key of org-1 granting mail_service access. -/
def mailKey : ServiceKey :=
  { ID := "sk-1", PartitionKey := "org-1", EntityType := "service_key",
    OrganizationID := "org-1", Name := "mail key", TokenValue := "h1",
    Applications := [mailAccess], ExpiresAt := none,
    CreatedByUserID := "u1", CreatedByGitHubID := "g1",
    CreatedByUsername := "alice", CreatedAt := 1, UpdatedAt := 1 }

/-- The same key with an expiry instant in the past of the checks below. -/
def expiredKey : ServiceKey :=
  { mailKey with ID := "sk-2", ExpiresAt := some 10 }

/-- An org-scoped lookup knowing exactly mailKey under ("org-1", "tok"). -/
def mailFinder : String → String → Except StoreErr ServiceKey :=
  fun orgID token =>
    if orgID == "org-1" && token == "tok" then .ok mailKey
    else .error .notFound

/-- An org-scoped lookup that always finds the expired key. -/
def expiredKeyFinder : String → String → Except StoreErr ServiceKey :=
  fun _ _ => .ok expiredKey

/-- An OAuth state cache holding the single-use state "s1" until instant 600. -/
def oauthStateCache : Cache Bool :=
  (NewCache Bool).Set "s1" true 600

/-- A membership-record point read: only org-1_u1 exists. -/
def sampleReadItem : String → String → ReadItemResult :=
  fun _ memberID =>
    if memberID == "org-1_u1" then .found else .notFound404

/-- An organization whose legacy MemberIDs list holds only u2. -/
def legacyOrg : Organization :=
  { ID := "org-1", PartitionKey := "org-1", EntityType := "organization",
    OrganizationID := "org-1", Name := "Org One", MemberIDs := ["u2"],
    CreatedAt := 1, UpdatedAt := 1 }

/-- An organization getter that always returns legacyOrg. -/
def sampleOrgGet : String → Except StoreErr Organization :=
  fun _ => .ok legacyOrg

/-- A user record that the user lookup can still find. -/
def aliceUser : User :=
  { ID := "u1", PartitionKey := "g1", GitHubID := "g1", Username := "alice",
    AvatarURL := "", CreatedAt := 1, UpdatedAt := 1 }

/-- Token validation knowing one expired-but-well-formed token. -/
def sampleValidate : String → TokenValidation :=
  fun t =>
    if t == "expired-tok" then .expired ⟨"u1", "g1", "alice"⟩ else .invalid

/-- A user lookup that finds aliceUser. -/
def userFoundRepo : String → String → Except StoreErr User :=
  fun _ _ => .ok aliceUser

/-- A user lookup for a now-deleted user. -/
def userDeletedRepo : String → String → Except StoreErr User :=
  fun _ _ => .error .notFound

/-- A token generator that succeeds with a fresh token. -/
def freshTokenGen : User → Except String String :=
  fun _ => .ok "fresh-token"

/-- A request context carrying full user info and an organization id. -/
def sampleCtx : Context :=
  ⟨some "u1", some "g1", some "alice", some "org-1"⟩

/-- The empty service_keys container. -/
def emptyStore : ServiceKeyStore := ⟨[], []⟩

/-- A container already holding 50 service keys of org-1. -/
def fullStore : ServiceKeyStore := ⟨List.replicate 50 mailKey, []⟩

/-- A global api-key lookup failing with a transport error. -/
def timeoutApiFinder : String → Except StoreErr ApiKey :=
  fun _ => .error (.internal "timeout")

/-- An org-scoped service-key lookup failing with a transport error. -/
def timeoutKeyFinder : String → String → Except StoreErr ServiceKey :=
  fun _ _ => .error (.internal "timeout")

/-- An api key whose expiry lies in the past of the checks below. -/
def expiredApiKey : ApiKey :=
  { ID := "ak-1", PartitionKey := "org-1", EntityType := "api_key",
    OrganizationID := "org-1", ApplicationID := "app-1", Name := "admin key",
    TokenValue := "h2", ExpiresAt := some 10, CreatedByUserID := "u1",
    CreatedByGitHubID := "g1", CreatedByUsername := "alice",
    CreatedAt := 1, UpdatedAt := 1 }

/-- A global api-key lookup that always finds the expired key. -/
def expiredApiFinder : String → Except StoreErr ApiKey :=
  fun _ => .ok expiredApiKey

/-! ## General lemmas about the hashing pipeline -/

/-- The digest always has 32 bytes, whatever the message. -/
theorem sha256Bytes_length (msg : List Nat) : (sha256Bytes msg).length = 32 := by
  simp [sha256Bytes, digestBytes, wordBytes]

/-- Hex encoding yields two characters per byte. -/
theorem hexEncode_length (bs : List Nat) : (hexEncode bs).length = 2 * bs.length := by
  induction bs with
  | nil => rfl
  | cons b t ih =>
    simp only [hexEncode, String.length, List.map_cons, List.flatten, byteHex] at *
    simp_all
    omega

/-- HashToken always produces a 64-character string. -/
theorem hashToken_length (s : String) : (HashToken s).length = 64 := by
  rw [HashToken, hexEncode_length, sha256Bytes_length]

set_option maxRecDepth 8000 in
/-- Sanity: the embedded SHA-256 agrees with the standard test vector. -/
example : HashToken "abc" =
    "ba7816bf8f01cfea414140de5dae2223b00361a396177a9cb410ff61f20015ad" := by
  rfl

/-! ## Claim C1 -/

/-- Claim C1: when the org-scoped lookup finds a service key that is not
expired and HasAccessToApplication finds a grant whose ApplicationName equals
the requested name exactly, ValidateAccess returns valid=true with that
grant's permission list verbatim (the very list stored in the entry, no
deduplication, sorting, additions or removals), and the matching grant is an
entry of the key whose name equals the request case-sensitively. -/
theorem validateAccess_match_permissions_verbatim
    (finder : String → String → Except StoreErr ServiceKey)
    (now : Nat) (input : ValidateAccessInput) (k : ServiceKey)
    (acc : ApplicationAccess)
    (horg : input.OrganizationID ≠ "")
    (hfind : finder input.OrganizationID input.Token = .ok k)
    (hexp : k.IsExpired now = false)
    (hacc : k.HasAccessToApplication input.ApplicationName = some acc) :
    ValidateAccess finder now input
      = ({ Valid := true, Permissions := acc.Permissions }, none)
    ∧ acc ∈ k.Applications ∧ acc.ApplicationName = input.ApplicationName := by
  refine ⟨?_, ?_, ?_⟩
  · simp [ValidateAccess, horg, hfind, hexp, hacc]
  · exact List.mem_of_find?_eq_some hacc
  · have h := List.find?_some hacc
    exact eq_of_beq h

/-- Closed corollary of C1 at a concrete key, finder and input. -/
theorem validateAccess_match_permissions_verbatim_witness :
    ValidateAccess mailFinder 100 ⟨"tok", "mail_service", "org-1"⟩
      = ({ Valid := true, Permissions := mailAccess.Permissions }, none)
    ∧ mailAccess ∈ mailKey.Applications
    ∧ mailAccess.ApplicationName = "mail_service" :=
  validateAccess_match_permissions_verbatim mailFinder 100
    ⟨"tok", "mail_service", "org-1"⟩ mailKey mailAccess
    (by decide) rfl rfl rfl

/-! ## Claim C2 -/

/-- Claim C2: an empty organization id is denied with the same value for every
store (so the store is never consulted), and every failing path — empty org
id, any lookup error, expired key, or no matching application grant — returns
the identical value `({Valid := false, Permissions := []}, nil-error)`, with
no detail distinguishing the cause. -/
theorem validateAccess_uniform_denial :
    (∀ finder now input, input.OrganizationID = "" →
      ValidateAccess finder now input = (invalidOutput, none)) ∧
    (∀ finder finder2 now now2 input, input.OrganizationID = "" →
      ValidateAccess finder now input = ValidateAccess finder2 now2 input) ∧
    (∀ finder now input e,
      finder input.OrganizationID input.Token = .error e →
      ValidateAccess finder now input = (invalidOutput, none)) ∧
    (∀ finder now input k,
      finder input.OrganizationID input.Token = .ok k →
      k.IsExpired now = true →
      ValidateAccess finder now input = (invalidOutput, none)) ∧
    (∀ finder now input k,
      finder input.OrganizationID input.Token = .ok k →
      k.HasAccessToApplication input.ApplicationName = none →
      ValidateAccess finder now input = (invalidOutput, none)) := by
  refine ⟨?_, ?_, ?_, ?_, ?_⟩
  · intro finder now input h
    simp [ValidateAccess, h]
  · intro finder finder2 now now2 input h
    simp [ValidateAccess, h]
  · intro finder now input e hf
    by_cases h : input.OrganizationID = "" <;> simp [ValidateAccess, h, hf]
  · intro finder now input k hf hexp
    by_cases h : input.OrganizationID = "" <;> simp [ValidateAccess, h, hf, hexp]
  · intro finder now input k hf hacc
    by_cases h : input.OrganizationID = "" <;>
      cases hexp : k.IsExpired now <;>
        simp [ValidateAccess, h, hf, hexp, hacc]

/-- Closed corollary of C2: the four failing inputs (empty org id, lookup
error, expired key, unknown application) all produce the identical value. -/
theorem validateAccess_uniform_denial_witness :
    ValidateAccess mailFinder 100 ⟨"tok", "mail_service", ""⟩
      = (invalidOutput, none) ∧
    ValidateAccess mailFinder 100 ⟨"tok", "mail_service", ""⟩
      = ValidateAccess expiredKeyFinder 7 ⟨"tok", "mail_service", ""⟩ ∧
    ValidateAccess mailFinder 100 ⟨"bad", "mail_service", "org-1"⟩
      = (invalidOutput, none) ∧
    ValidateAccess expiredKeyFinder 100 ⟨"tok", "mail_service", "org-1"⟩
      = (invalidOutput, none) ∧
    ValidateAccess mailFinder 100 ⟨"tok", "unknown_app", "org-1"⟩
      = (invalidOutput, none) :=
  ⟨validateAccess_uniform_denial.1 mailFinder 100 _ rfl,
   validateAccess_uniform_denial.2.1 mailFinder expiredKeyFinder 100 7 _ rfl,
   validateAccess_uniform_denial.2.2.1 mailFinder 100 _ .notFound rfl,
   validateAccess_uniform_denial.2.2.2.1 expiredKeyFinder 100 _ expiredKey rfl rfl,
   validateAccess_uniform_denial.2.2.2.2 mailFinder 100 _ mailKey rfl rfl⟩

/-! ## Claim C3 -/

/-- Claim C3: whenever the looked-up key's expiry timestamp is set and lies
strictly in the past of the check instant, ValidateAccess denies, regardless
of every other field of the key and of the input; and a key with an unset
(nil) expiry timestamp is never treated as expired. -/
theorem validateAccess_expired_key_denied
    (finder : String → String → Except StoreErr ServiceKey)
    (now : Nat) (input : ValidateAccessInput) (k : ServiceKey) (t : Nat)
    (hfind : finder input.OrganizationID input.Token = .ok k)
    (hset : k.ExpiresAt = some t) (hpast : t < now) :
    ValidateAccess finder now input = (invalidOutput, none)
    ∧ ∀ (k2 : ServiceKey) (now2 : Nat), k2.ExpiresAt = none →
        k2.IsExpired now2 = false := by
  constructor
  · have hexp : k.IsExpired now = true := by
      simp [ServiceKey.IsExpired, hset, hpast]
    by_cases h : input.OrganizationID = "" <;>
      simp [ValidateAccess, h, hfind, hexp]
  · intro k2 now2 hnone
    simp [ServiceKey.IsExpired, hnone]

/-- Closed corollary of C3 at an expired key and a nil-expiry key. -/
theorem validateAccess_expired_key_denied_witness :
    ValidateAccess expiredKeyFinder 100 ⟨"tok", "mail_service", "org-1"⟩
      = (invalidOutput, none) ∧
    mailKey.IsExpired 5 = false :=
  ⟨(validateAccess_expired_key_denied expiredKeyFinder 100
      ⟨"tok", "mail_service", "org-1"⟩ expiredKey 10 rfl rfl (by decide)).1,
   (validateAccess_expired_key_denied expiredKeyFinder 100
      ⟨"tok", "mail_service", "org-1"⟩ expiredKey 10 rfl rfl (by decide)).2
     mailKey 5 rfl⟩

/-! ## Claim C6 -/

/-- Claim C6: for a key stored with an entry that is unexpired at the first
observation, GetAndDelete returns the stored value with found=true and leaves
a cache from which the entry is gone; with no intervening Set, a second
GetAndDelete — or a Get — at any later observation returns found=false. The
read and the removal are the two effects of the one operation (the Go method
performs both under a single critical section). -/
theorem cache_getAndDelete_single_use {T : Type} [Inhabited T]
    (c : Cache T) (k : String) (v : T) (e now1 : Nat)
    (hstored : c.items k = some ⟨v, e⟩) (hlive : now1 ≤ e) :
    (c.GetAndDelete now1 k).1 = (v, true) ∧
    (∀ now2, ((c.GetAndDelete now1 k).2.GetAndDelete now2 k).1
      = (default, false)) ∧
    (∀ now2, (c.GetAndDelete now1 k).2.Get now2 k = (default, false)) := by
  have hnot : ¬ now1 > e := Nat.not_lt.mpr hlive
  refine ⟨?_, ?_, ?_⟩
  · simp [Cache.GetAndDelete, hstored, hnot]
  · intro now2
    simp [Cache.GetAndDelete, Cache.Delete, hstored, hnot]
  · intro now2
    simp [Cache.GetAndDelete, Cache.Get, Cache.Delete, hstored, hnot]

/-- Closed corollary of C6: the OAuth single-use state flow. -/
theorem cache_getAndDelete_single_use_witness :
    (oauthStateCache.GetAndDelete 100 "s1").1 = (true, true) ∧
    ((oauthStateCache.GetAndDelete 100 "s1").2.GetAndDelete 101 "s1").1
      = (default, false) ∧
    (oauthStateCache.GetAndDelete 100 "s1").2.Get 101 "s1"
      = (default, false) :=
  ⟨(cache_getAndDelete_single_use oauthStateCache "s1" true 600 100
      rfl (by decide)).1,
   (cache_getAndDelete_single_use oauthStateCache "s1" true 600 100
      rfl (by decide)).2.1 101,
   (cache_getAndDelete_single_use oauthStateCache "s1" true 600 100
      rfl (by decide)).2.2 101⟩

/-! ## Claim C10 -/

/-- Claim C10: cache expiry is strict — an entry observed exactly at its
ExpiresAt instant is still returned with found=true by Get and by
GetAndDelete; either operation hides the entry (found=false) exactly at
observation instants strictly after ExpiresAt. -/
theorem cache_expiry_strict_boundary {T : Type} [Inhabited T]
    (c : Cache T) (k : String) (v : T) (e : Nat)
    (hstored : c.items k = some ⟨v, e⟩) :
    c.Get e k = (v, true) ∧
    (c.GetAndDelete e k).1 = (v, true) ∧
    (∀ now, (c.Get now k).2 = false ↔ e < now) ∧
    (∀ now, ((c.GetAndDelete now k).1).2 = false ↔ e < now) := by
  refine ⟨?_, ?_, ?_, ?_⟩
  · simp [Cache.Get, hstored]
  · simp [Cache.GetAndDelete, hstored]
  · intro now
    by_cases h : e < now <;> simp [Cache.Get, hstored, h]
  · intro now
    by_cases h : e < now <;> simp [Cache.GetAndDelete, hstored, h]

/-- Closed corollary of C10 at the boundary instant and one instant past. -/
theorem cache_expiry_strict_boundary_witness :
    oauthStateCache.Get 600 "s1" = (true, true) ∧
    (oauthStateCache.GetAndDelete 600 "s1").1 = (true, true) ∧
    ((oauthStateCache.Get 601 "s1").2 = false ↔ 600 < 601) ∧
    (((oauthStateCache.GetAndDelete 601 "s1").1).2 = false ↔ 600 < 601) :=
  ⟨(cache_expiry_strict_boundary oauthStateCache "s1" true 600 rfl).1,
   (cache_expiry_strict_boundary oauthStateCache "s1" true 600 rfl).2.1,
   (cache_expiry_strict_boundary oauthStateCache "s1" true 600 rfl).2.2.1 601,
   (cache_expiry_strict_boundary oauthStateCache "s1" true 600 rfl).2.2.2 601⟩

/-! ## Claim C4 -/

/-- Claim C4: after a successful CreateServiceKey against the concrete
repository, the raw generated token appears only in the output's TokenValue
field; the persisted record (the new last element of the container) and the
ServiceKey struct in the output are the same record and carry
TokenValue = HashToken(raw) — which, HashToken being 64 characters long, can
never equal a raw token whose length is not 64 (generated raw tokens are
44-character base64 strings); any record of the new container equal to the
raw token was already present before the call. -/
theorem createServiceKey_plaintext_once
    (st : ServiceKeyStore) (ctx : Context) (input : CreateServiceKeyInput)
    (rawToken newID auditID : String) (now : Nat)
    (userID githubID username orgID : String) (n : Nat)
    (hu : ctx.UserID = some userID) (hg : ctx.GitHubID = some githubID)
    (hn : ctx.Username = some username) (ho : ctx.OrganizationID = some orgID)
    (hcount : ServiceKeyRepository.CountByOrganization st orgID = .ok n)
    (hlt : n < 50) (hraw : rawToken.length ≠ 64) :
    ∃ out st2,
      CreateServiceKey (serviceKeyRepo auditID now) st ctx input rawToken newID now
        = .ok (out, st2) ∧
      out.TokenValue = rawToken ∧
      out.ServiceKey.TokenValue = HashToken rawToken ∧
      st2.keys = st.keys ++ [out.ServiceKey] ∧
      out.ServiceKey.TokenValue ≠ rawToken ∧
      ∀ k2 ∈ st2.keys, k2.TokenValue = rawToken → k2 ∈ st.keys := by
  have hneq : HashToken rawToken ≠ rawToken := by
    intro h
    have hl := hashToken_length rawToken
    rw [h] at hl
    exact hraw hl
  have hok : ¬ (n ≥ 50) := Nat.not_le.mpr hlt
  have heval :
      CreateServiceKey (serviceKeyRepo auditID now) st ctx input rawToken newID now
        = .ok
          (⟨{ ID := newID, PartitionKey := orgID, EntityType := "service_key",
              OrganizationID := orgID, Name := input.Name,
              TokenValue := HashToken rawToken,
              Applications := input.Applications, ExpiresAt := input.ExpiresAt,
              CreatedByUserID := userID, CreatedByGitHubID := githubID,
              CreatedByUsername := username, CreatedAt := now,
              UpdatedAt := now }, rawToken⟩,
           ⟨st.keys ++
              [{ ID := newID, PartitionKey := orgID,
                 EntityType := "service_key", OrganizationID := orgID,
                 Name := input.Name, TokenValue := HashToken rawToken,
                 Applications := input.Applications,
                 ExpiresAt := input.ExpiresAt, CreatedByUserID := userID,
                 CreatedByGitHubID := githubID, CreatedByUsername := username,
                 CreatedAt := now, UpdatedAt := now }],
            st.audits ++
              [{ ID := auditID, PartitionKey := orgID,
                 EntityType := "audit_history", EntityID := newID,
                 OrganizationID := orgID, Action := .created,
                 CreatedByUserID := userID, CreatedByGitHubID := githubID,
                 CreatedByUsername := username, CreatedAt := now }]⟩) := by
    simp [CreateServiceKey, GetUserInfo, GetUserID, GetGitHubID, GetUsername,
          GetOrganizationID, hu, hg, hn, ho, serviceKeyRepo, hcount, hok,
          ServiceKeyRepository.Create, ServiceKey.GetPartitionKey]
  refine ⟨_, _, heval, rfl, rfl, rfl, hneq, ?_⟩
  intro k2 hk2 hk2raw
  rcases List.mem_append.mp hk2 with h | h
  · exact h
  · rw [List.mem_singleton] at h
    subst h
    exact absurd hk2raw hneq

/-- Closed corollary of C4: creating a key in an empty container. -/
theorem createServiceKey_plaintext_once_witness :
    ServiceKeyRepository.CountByOrganization emptyStore "org-1" = .ok 0 ∧
    ("raw-tok" : String).length ≠ 64 ∧
    ∃ out st2,
      CreateServiceKey (serviceKeyRepo "a1" 7) emptyStore sampleCtx
          ⟨"mail key", [mailAccess], none⟩ "raw-tok" "sk-new" 7
        = .ok (out, st2) ∧
      out.TokenValue = "raw-tok" ∧
      out.ServiceKey.TokenValue = HashToken "raw-tok" ∧
      st2.keys = emptyStore.keys ++ [out.ServiceKey] ∧
      out.ServiceKey.TokenValue ≠ "raw-tok" ∧
      ∀ k2 ∈ st2.keys, k2.TokenValue = "raw-tok" → k2 ∈ emptyStore.keys :=
  ⟨rfl, by decide,
   createServiceKey_plaintext_once emptyStore sampleCtx
     ⟨"mail key", [mailAccess], none⟩ "raw-tok" "sk-new" "a1" 7
     "u1" "g1" "alice" "org-1" 0 rfl rfl rfl rfl rfl (by decide) (by decide)⟩

/-! ## Claim C5 -/

/-- Claim C5: with 50 or more service keys already counted for the
organization, CreateServiceKey fails with the distinct named
ErrServiceKeyLimitExceeded — a different value from the authorization-style
errors — and performs no write: the result is the same whatever the
repository's Create operation is (Create is never invoked), and the error
return carries no new store state, so the caller's store is unchanged. -/
theorem createServiceKey_limit_no_write {σ : Type}
    (repo : ServiceKeyCreator σ) (st : σ) (ctx : Context)
    (input : CreateServiceKeyInput) (rawToken newID : String) (now : Nat)
    (userID githubID username orgID : String) (count : Nat)
    (hu : ctx.UserID = some userID) (hg : ctx.GitHubID = some githubID)
    (hn : ctx.Username = some username) (ho : ctx.OrganizationID = some orgID)
    (hcount : repo.CountByOrganization st orgID = .ok count)
    (hge : 50 ≤ count) :
    CreateServiceKey repo st ctx input rawToken newID now
      = .error .serviceKeyLimitExceeded ∧
    (∀ create2,
      CreateServiceKey { repo with Create := create2 } st ctx input rawToken newID now
        = .error .serviceKeyLimitExceeded) ∧
    AdminError.serviceKeyLimitExceeded ≠ .userInfoNotFound ∧
    AdminError.serviceKeyLimitExceeded ≠ .orgIDNotFound := by
  refine ⟨?_, ?_, by decide, by decide⟩
  · simp [CreateServiceKey, GetUserInfo, GetUserID, GetGitHubID, GetUsername,
          GetOrganizationID, hu, hg, hn, ho, hcount, hge]
  · intro create2
    simp [CreateServiceKey, GetUserInfo, GetUserID, GetGitHubID, GetUsername,
          GetOrganizationID, hu, hg, hn, ho, hcount, hge]

/-- Closed corollary of C5: an organization already holding 50 keys. -/
theorem createServiceKey_limit_no_write_witness :
    ServiceKeyRepository.CountByOrganization fullStore "org-1" = .ok 50 ∧
    CreateServiceKey (serviceKeyRepo "a1" 7) fullStore sampleCtx
        ⟨"mail key", [mailAccess], none⟩ "raw-tok" "sk-new" 7
      = .error .serviceKeyLimitExceeded :=
  ⟨rfl,
   (createServiceKey_limit_no_write (serviceKeyRepo "a1" 7) fullStore sampleCtx
      ⟨"mail key", [mailAccess], none⟩ "raw-tok" "sk-new" 7
      "u1" "g1" "alice" "org-1" 50 rfl rfl rfl rfl rfl (by decide)).1⟩

/-! ## Claim C7 -/

/-- Claim C7: IsMember consults the authoritative organization_member join
record first and answers true whenever it exists — for every organization
getter, so the legacy list is not consulted; only when the point read comes
back 404 does it fall back to the organization's legacy embedded MemberIDs
list, answering exactly whether userID appears there. -/
theorem isMember_authoritative_then_legacy
    (readItem : String → String → ReadItemResult)
    (orgGet : String → Except StoreErr Organization)
    (orgID userID : String) :
    (readItem orgID (orgID ++ "_" ++ userID) = .found →
      OrganizationMemberRepository.IsMember readItem orgGet orgID userID
        = .ok true) ∧
    (∀ org, readItem orgID (orgID ++ "_" ++ userID) = .notFound404 →
      orgGet orgID = .ok org →
      OrganizationMemberRepository.IsMember readItem orgGet orgID userID
        = .ok (org.MemberIDs.contains userID)) := by
  constructor
  · intro h
    simp [OrganizationMemberRepository.IsMember, h]
  · intro org h hget
    simp [OrganizationMemberRepository.IsMember, h, hget]

/-- Closed corollary of C7: u1 has a join record but is absent from the
legacy list and is a member; u2 has no join record and is found through the
legacy list. -/
theorem isMember_authoritative_then_legacy_witness :
    OrganizationMemberRepository.IsMember sampleReadItem sampleOrgGet
      "org-1" "u1" = .ok true ∧
    OrganizationMemberRepository.IsMember sampleReadItem sampleOrgGet
      "org-1" "u2" = .ok (legacyOrg.MemberIDs.contains "u2") :=
  ⟨(isMember_authoritative_then_legacy sampleReadItem sampleOrgGet
      "org-1" "u1").1 rfl,
   (isMember_authoritative_then_legacy sampleReadItem sampleOrgGet
      "org-1" "u2").2 legacyOrg rfl rfl⟩

/-! ## Claim C8 -/

/-- Claim C8: on a Bearer token that ValidateToken reports as expired with
recoverable claims, the middleware looks the user up; if found, a fresh token
is minted, exposed through the X-Refreshed-Token response header, and the
request proceeds to the next handler with the refreshed identity
(userId, githubId, username — taken from the user record) attached to the
context; if the user lookup fails, the request is rejected with 401 and the
next handler is not invoked. -/
theorem jwtMiddleware_expired_token_refresh
    (validateToken : String → TokenValidation)
    (userGetByID : String → String → Except StoreErr User)
    (generateToken : User → Except String String)
    (method authHeader tok : String) (claims : Claims)
    (hmethod : method ≠ "OPTIONS") (hhdr : authHeader ≠ "")
    (hsplit : stringsSplitSpace authHeader = ["Bearer", tok])
    (hval : validateToken tok = .expired claims) :
    (∀ e, userGetByID claims.UserID claims.GitHubID = .error e →
      JWTAuthMiddleware validateToken userGetByID generateToken method authHeader
        = .reject 401) ∧
    (∀ user newToken,
      userGetByID claims.UserID claims.GitHubID = .ok user →
      generateToken user = .ok newToken →
      JWTAuthMiddleware validateToken userGetByID generateToken method authHeader
        = .next (some (user.ID, user.GitHubID, user.Username)) (some newToken)) := by
  constructor
  · intro e he
    simp [JWTAuthMiddleware, hmethod, hhdr, hsplit, hval, he]
  · intro user newToken huser hgen
    simp [JWTAuthMiddleware, hmethod, hhdr, hsplit, hval, huser, hgen]

/-- Closed corollary of C8: the same expired token proceeds with a refreshed
token for an existing user and is rejected for a deleted user. -/
theorem jwtMiddleware_expired_token_refresh_witness :
    JWTAuthMiddleware sampleValidate userFoundRepo freshTokenGen
        "GET" "Bearer expired-tok"
      = .next (some (aliceUser.ID, aliceUser.GitHubID, aliceUser.Username))
          (some "fresh-token") ∧
    JWTAuthMiddleware sampleValidate userDeletedRepo freshTokenGen
        "GET" "Bearer expired-tok"
      = .reject 401 :=
  ⟨(jwtMiddleware_expired_token_refresh sampleValidate userFoundRepo
      freshTokenGen "GET" "Bearer expired-tok" "expired-tok"
      ⟨"u1", "g1", "alice"⟩ (by decide) (by decide) (by decide) rfl).2
      aliceUser "fresh-token" rfl rfl,
   (jwtMiddleware_expired_token_refresh sampleValidate userDeletedRepo
      freshTokenGen "GET" "Bearer expired-tok" "expired-tok"
      ⟨"u1", "g1", "alice"⟩ (by decide) (by decide) (by decide) rfl).1
      .notFound rfl⟩

/-! ## Claim C9 -/

/-- Claim C9 fails on the code: at a concrete store that fails with an
internal transport error, ApiKeyValidator.Validate returns `(false, nil)`,
the very same value it returns for an expired (invalid) credential, and
ValidateAccess returns `({valid:false}, nil)`, the very same value it
returns for a not-found credential — so the caller receives no error result
distinguishable from an invalid-credential denial. -/
theorem storeError_indistinguishable_counterexample :
    ApiKeyValidator.Validate timeoutApiFinder 100 "tok" = (false, none) ∧
    ApiKeyValidator.Validate timeoutApiFinder 100 "tok"
      = ApiKeyValidator.Validate expiredApiFinder 100 "tok" ∧
    ValidateAccess timeoutKeyFinder 100 ⟨"tok", "mail_service", "org-1"⟩
      = (invalidOutput, none) ∧
    ValidateAccess timeoutKeyFinder 100 ⟨"tok", "mail_service", "org-1"⟩
      = ValidateAccess mailFinder 100 ⟨"bad", "mail_service", "org-1"⟩ :=
  ⟨rfl, rfl, rfl, rfl⟩

/-- Amended C9: store errors during credential validation are collapsed into
the invalid-credential outcome — ApiKeyValidator.Validate returns
`(false, nil)` and ValidateAccess returns `({valid:false}, nil)` on every
lookup error, identical to the plain denial, with no distinguishable internal
error surfaced to the caller. -/
theorem storeErrors_collapse_to_denial
    (finder : String → Except StoreErr ApiKey) (now : Nat) (tok : String)
    (e : StoreErr) (hf : finder tok = .error e) :
    ApiKeyValidator.Validate finder now tok = (false, none) ∧
    ∀ finder2 now2 input e2,
      finder2 input.OrganizationID input.Token = .error e2 →
      ValidateAccess finder2 now2 input = (invalidOutput, none) := by
  constructor
  · simp [ApiKeyValidator.Validate, hf]
  · intro finder2 now2 input e2 hf2
    by_cases h : input.OrganizationID = "" <;> simp [ValidateAccess, h, hf2]

/-- Closed corollary of the amended C9 at concrete erroring stores. -/
theorem storeErrors_collapse_to_denial_witness :
    ApiKeyValidator.Validate timeoutApiFinder 50 "tok" = (false, none) ∧
    ValidateAccess timeoutKeyFinder 50 ⟨"tok", "mail_service", "org-1"⟩
      = (invalidOutput, none) :=
  ⟨(storeErrors_collapse_to_denial timeoutApiFinder 50 "tok"
      (.internal "timeout") rfl).1,
   (storeErrors_collapse_to_denial timeoutApiFinder 50 "tok"
      (.internal "timeout") rfl).2 timeoutKeyFinder 50
      ⟨"tok", "mail_service", "org-1"⟩ (.internal "timeout") rfl⟩

end Baluster
